import Mathlib

/-
  Verification of the deck incidence model and validation engine of the
  fastmatchgame repository (57-card projective-plane matching game).

  The Python sources are shallowly embedded:
  * `symbols.py`   — the display-name table `EMOJI_NAMES`.
  * `graph.py`     — the computational fallback backend
                     (`_fallback_symbols_on_card`, `_fallback_shared_symbol`);
                     the graph backend is modelled through the construction
                     rules of `seed_neo4j.py` together with the Cypher query
                     run by `get_shared_symbol`.
  * `game_logic.py`— `Round`, `validate_human_answer`, `validate_ai_answer`,
                     `new_round`.
  * `ai_player.py` — `judge_answer`.

  Python integers are `Int` (with `Int.ediv`/`Int.emod` for `//` and `%`,
  which agree with Python for the nonnegative divisor 7 used here), Python
  `None` is `Option.none`, a raised exception is `Except.error`, and a
  Python `dict` literal with the fixed keys "pointId"/"name" is the record
  `Symbol` together with the key-lookup function `Symbol.dictGet`.

  Exhaustive facts over the 57 cards are established through `deck`, the
  precomputed table of the 57 per-card point-id lists: `deck_eq` proves by
  evaluation that `deck` is exactly what the embedded source produces, the
  boolean checks below it are evaluated over the literal table, and the
  statements about the source functions are then derived by rewriting.
-/

set_option maxRecDepth 4000

namespace FastMatch

/-- symbols.py `EMOJI_NAMES`: display name for each symbol, index = symbolId
0..56. -/
def EMOJI_NAMES : List String :=
  ["Anchor", "Apple", "Baby bottle", "Bomb", "Cactus", "Candle", "Taxi",
   "Carrot", "Knight", "Clock", "Clown", "Daisy", "Dinosaur", "Dolphin", "Dragon",
   "Exclamation", "Eye", "Fire", "Clover", "Ghost", "Green heart", "Hammer", "Heart",
   "Ice", "Tent", "Key", "Ladybug", "Light bulb", "Lightning", "Lock", "Maple leaf",
   "Moon", "Prohibited", "Pumpkin", "Pencil", "Bird", "Cat", "Hand wave", "Lips",
   "Scissors", "Skull", "Snowflake", "Snowman", "Spider", "Spider web", "Sun",
   "Sunglasses", "Target", "Tortoise", "Music notes", "Tree", "Drop", "Dog",
   "Yin yang", "Zebra", "Question mark", "Cheese"]

/-- Modelled from the spec: `graph.py` imports `name_for_point_id` from the
symbols module, but `src/symbols.py` defines only `name_for_symbol_id`; the
definition of `name_for_point_id` is missing from the sources. It is modelled
from the spec (a Point has an integer id and a display name), mirroring the
shape of `symbols.name_for_symbol_id`: the table entry for an id in range,
a question mark otherwise. -/
def name_for_point_id (pid : Int) : String :=
  if 0 ≤ pid ∧ pid ≤ 56 then EMOJI_NAMES.getD pid.toNat "?" else "?"

/-- graph.py `_fallback_symbols_on_card`, the local list `indices`:
guard `0 <= card_id <= 56` (else `[]`), then
affine cards 0..48 (`m, b = card_id // 7, card_id % 7`; points `x*7 + (m*x+b)%7`
for `x in range(7)` plus slope-infinity `49 + m`), vertical cards 49..55
(`c = card_id - 49`; points `c*7 + y` for `y in range(7)` plus `56`), and the
infinity card 56 (`range(49, 57)`). -/
def fallback_card_indices (card_id : Int) : List Int :=
  if 0 ≤ card_id ∧ card_id ≤ 56 then
    if card_id < 49 then
      let m := card_id.ediv 7
      let b := card_id.emod 7
      ((List.range 7).map (fun x => (x : Int) * 7 + (m * (x : Int) + b).emod 7)) ++ [49 + m]
    else if card_id < 56 then
      let c := card_id - 49
      ((List.range 7).map (fun y => c * 7 + (y : Int))) ++ [56]
    else (List.range 8).map (fun i => 49 + (i : Int))
  else []

/-- The dict `{ "pointId": ..., "name": ... }` returned by the incidence-store
queries of graph.py. -/
structure Symbol where
  pointId : Int
  name : String
deriving DecidableEq

/-- graph.py `_fallback_symbols_on_card`: returns
`[{"pointId": i + 1, "name": name_for_point_id(i + 1)} for i in indices]`
(point ids are the construction indices shifted by one, 1..57, as the
docstring of the source states). -/
def fallback_symbols_on_card (card_id : Int) : List Symbol :=
  (fallback_card_indices card_id).map (fun i => ⟨i + 1, name_for_point_id (i + 1)⟩)

/-- The Python set `{p["pointId"] for p in _fallback_symbols_on_card(c)}` as a
list. The list is duplicate-free for every input (`card_point_ids_nodup`
below), so it represents the set faithfully without an explicit
deduplication pass. -/
def card_point_ids (card_id : Int) : List Int :=
  (fallback_symbols_on_card card_id).map Symbol.pointId

/-- The Python set intersection `sa & sb` computed by
`_fallback_shared_symbol`: members of the first point-id set that also belong
to the second. Both lists are duplicate-free (`card_point_ids_nodup`), so the
length of this list is the cardinality of the set intersection. -/
def shared_ids (a b : Int) : List Int :=
  (card_point_ids a).filter (fun p => (card_point_ids b).contains p)

/-- graph.py `_fallback_shared_symbol`: `None` unless the intersection has
exactly one element; otherwise that element (`shared_ids.pop()` on a
singleton set) with its display name. -/
def fallback_shared_symbol (a b : Int) : Option Symbol :=
  if (shared_ids a b).length ≠ 1 then none
  else
    let pid := (shared_ids a b).headD 0
    some ⟨pid, name_for_point_id pid⟩

/-- game_logic.py `Round`: three card ids and their roles. -/
structure Round where
  target_card_id : Int
  ai_card_id : Int
  human_card_id : Int
deriving DecidableEq

/-- game_logic.py `Round.human_target_shared`: `get_shared_symbol` on the
human and target cards; with the graph backend unavailable,
`get_shared_symbol` is `_fallback_shared_symbol`. -/
def Round.human_target_shared (r : Round) : Option Symbol :=
  fallback_shared_symbol r.human_card_id r.target_card_id

/-- game_logic.py `Round.ai_target_shared`. -/
def Round.ai_target_shared (r : Round) : Option Symbol :=
  fallback_shared_symbol r.ai_card_id r.target_card_id

/-- A raised Python exception relevant to the validation code. -/
inductive PyErr where
  | keyError : String → PyErr
deriving DecidableEq

/-- A Python value stored under a dict key in the validation code. -/
inductive PyVal where
  | int : Int → PyVal
  | str : String → PyVal
deriving DecidableEq

/-- Subscript access `truth[key]` on the dict
`{ "pointId": ..., "name": ... }`: the dict has exactly those two keys, and
any other key raises `KeyError(key)`. -/
def Symbol.dictGet (s : Symbol) (key : String) : Except PyErr PyVal :=
  if key = "pointId" then Except.ok (PyVal.int s.pointId)
  else if key = "name" then Except.ok (PyVal.str s.name)
  else Except.error (PyErr.keyError key)

/-- game_logic.py `Round.validate_human_answer`:
`truth = self.human_target_shared()`; `if not truth: return False`;
`if symbol_id is not None and truth["symbolId"] == symbol_id: return True`
(note the source subscripts the key "symbolId", which the truth dict does not
carry — Python raises `KeyError`, short-circuited away only when `symbol_id`
is `None`);
`if name is not None and truth["name"].strip().lower() == name.strip().lower():
return True`; `return False`. -/
def Round.validate_human_answer (r : Round) (symbol_id : Option Int)
    (name : Option String) : Except PyErr Bool :=
  match r.human_target_shared with
  | none => Except.ok false
  | some truth =>
    let nameCheck : Except PyErr Bool :=
      match name with
      | some n =>
        if truth.name.trim.toLower = n.trim.toLower then Except.ok true
        else Except.ok false
      | none => Except.ok false
    match symbol_id with
    | some sid =>
      match truth.dictGet "symbolId" with
      | Except.error e => Except.error e
      | Except.ok v => if v = PyVal.int sid then Except.ok true else nameCheck
    | none => nameCheck

/-- game_logic.py `Round.validate_ai_answer`: identical to the human variant
but against `ai_target_shared`. -/
def Round.validate_ai_answer (r : Round) (symbol_id : Option Int)
    (name : Option String) : Except PyErr Bool :=
  match r.ai_target_shared with
  | none => Except.ok false
  | some truth =>
    let nameCheck : Except PyErr Bool :=
      match name with
      | some n =>
        if truth.name.trim.toLower = n.trim.toLower then Except.ok true
        else Except.ok false
      | none => Except.ok false
    match symbol_id with
    | some sid =>
      match truth.dictGet "symbolId" with
      | Except.error e => Except.error e
      | Except.ok v => if v = PyVal.int sid then Except.ok true else nameCheck
    | none => nameCheck

/-- ai_player.py `judge_answer`: dispatch on the role string, validate with
`claimed_name or ""` for the name, and return
`{ "correct": valid, "expected": truth }`; a raised exception propagates. -/
def judge_answer (claimed_name : Option String) (claimed_symbol_id : Option Int)
    (round_obj : Round) (role : String) : Except PyErr (Bool × Option Symbol) :=
  if role = "human" then
    match round_obj.validate_human_answer claimed_symbol_id
        (some (claimed_name.getD "")) with
    | Except.error e => Except.error e
    | Except.ok valid => Except.ok (valid, round_obj.human_target_shared)
  else
    match round_obj.validate_ai_answer claimed_symbol_id
        (some (claimed_name.getD "")) with
    | Except.error e => Except.error e
    | Except.ok valid => Except.ok (valid, round_obj.ai_target_shared)

/-- game_logic.py `new_round`, applied to the list drawn by
`random.sample(range(57), 3)`: first id is the target card, second the AI
card, third the human card. -/
def new_round (ids : List Int) : Round :=
  { target_card_id := ids.getD 0 0
    ai_card_id := ids.getD 1 0
    human_card_id := ids.getD 2 0 }

/-- Modelled from the spec: the contract of `random.sample(range(57), 3)` used
by `new_round` — the Python standard library (restated by the spec) guarantees
the draw is a list of 3 pairwise-distinct members of `range(57)`. -/
def is_sample_57_3 (ids : List Int) : Prop :=
  ids.length = 3 ∧ ids.Nodup ∧ ∀ i ∈ ids, 0 ≤ i ∧ i < 57

instance (ids : List Int) : Decidable (is_sample_57_3 ids) := by
  unfold is_sample_57_3; infer_instance

/-- The `slope` property written by seed_neo4j.py `_seed_points`: a number for
the slope-infinity points 49..55, the string "vertical" for point 56, null
otherwise. -/
inductive SlopeProp where
  | num : Nat → SlopeProp
  | vertical
  | null
deriving DecidableEq

/-- A `:Point:Symbol` node as created by seed_neo4j.py `_seed_points`. -/
structure SeedPoint where
  sid : Nat
  name : String
  kind : String
  x : Option Nat
  y : Option Nat
  slope : SlopeProp
deriving DecidableEq

/-- seed_neo4j.py `_seed_points`: node with `symbolId = sid`,
`name = EMOJI_NAMES[sid]`, `kind`, affine coordinates `x = sid // 7`,
`y = sid % 7` for sid < 49, and the slope property. The node carries a
`symbolId` property and no `pointId` property. -/
def seedPoint (sid : Nat) : SeedPoint :=
  { sid := sid
    name := EMOJI_NAMES.getD sid "?"
    kind := if sid < 49 then "affine" else "infinity"
    x := if sid < 49 then some (sid / 7) else none
    y := if sid < 49 then some (sid % 7) else none
    slope :=
      if sid = 56 then SlopeProp.vertical
      else if 49 ≤ sid ∧ sid ≤ 55 then SlopeProp.num (sid - 49)
      else SlopeProp.null }

/-- A `:Line:Card` node as created by seed_neo4j.py `_seed_cards` (the label
string is omitted; it is not consulted by any query). -/
structure SeedCard where
  cid : Nat
  kind : String
  m : Option Nat
  b : Option Nat
  x : Option Nat
deriving DecidableEq

/-- seed_neo4j.py `_seed_cards`: affine cards 0..48 with `m = cid // 7`,
`b = cid % 7`, vertical cards 49..55 with `x = cid - 49`, and the infinity
card 56. -/
def seedCard (cid : Nat) : SeedCard :=
  if cid < 49 then
    { cid := cid, kind := "affine", m := some (cid / 7), b := some (cid % 7), x := none }
  else if cid < 56 then
    { cid := cid, kind := "vertical", m := none, b := none, x := some (cid - 49) }
  else
    { cid := cid, kind := "infinity", m := none, b := none, x := none }

/-- seed_neo4j.py `_seed_incidence`: point `sid` is `:ON` card `cid` exactly
when one of the five MERGE blocks creates the edge — (3a) affine card and
affine point with `x in range(7)` and `y = (m*x + b) % 7`, (3b) affine card
and the infinity point whose slope number equals `m`, (3c) vertical card and
affine point with `x = c`, `y in range(7)`, (3d) vertical card and the
point with slope "vertical", (3e) infinity card and any infinity point. -/
def seedIncident (sid cid : Nat) : Bool :=
  let p := seedPoint sid
  let l := seedCard cid
  (l.kind == "affine" && p.kind == "affine" &&
    (match l.m, l.b with
     | some m, some b =>
       (List.range 7).any (fun x => p.x == some x && p.y == some ((m * x + b) % 7))
     | _, _ => false)) ||
  (l.kind == "affine" && p.kind == "infinity" &&
    (match l.m, p.slope with
     | some m, SlopeProp.num s => s == m
     | _, _ => false)) ||
  (l.kind == "vertical" && p.kind == "affine" &&
    (match l.x with
     | some c => (List.range 7).any (fun y => p.x == some c && p.y == some y)
     | none => false)) ||
  (l.kind == "vertical" && p.kind == "infinity" && p.slope == SlopeProp.vertical) ||
  (l.kind == "infinity" && p.kind == "infinity")

/-- The rows matched by `CYPHER_SHARED_SYMBOL` on the seeded graph: the points
`:ON` both cards. -/
def graph_shared_points (a b : Nat) : List Nat :=
  (List.range 57).filter (fun sid => seedIncident sid a && seedIncident sid b)

/-- graph.py `get_shared_symbol` on the seeded graph backend: `result.single()`
yields `None` for zero rows and the lone row otherwise; the query returns
`s.pointId` and `s.name`, but the seeded nodes carry `symbolId`, not
`pointId`, so the returned point id is null (`none`) while the name is the
seeded node name (being non-null, the `name_for_point_id` fill-in of the
source is skipped). -/
def graph_get_shared_symbol (a b : Nat) : Option (Option Int × String) :=
  match graph_shared_points a b with
  | [] => none
  | sid :: _ => some (none, (seedPoint sid).name)

/-- Number of cards among the 57 whose fallback point-id set contains `pid`. -/
def point_degree (pid : Int) : Nat :=
  ((List.range 57).filter (fun c => (card_point_ids (c : Int)).contains pid)).length

/-- The 57 per-card point-id lists of the fallback deck, precomputed.
`deck_eq` proves by evaluation that this table is exactly
`card_point_ids 0 .. card_point_ids 56`. -/
def deck : List (List Int) :=
  [[1, 8, 15, 22, 29, 36, 43, 50],
   [2, 9, 16, 23, 30, 37, 44, 50],
   [3, 10, 17, 24, 31, 38, 45, 50],
   [4, 11, 18, 25, 32, 39, 46, 50],
   [5, 12, 19, 26, 33, 40, 47, 50],
   [6, 13, 20, 27, 34, 41, 48, 50],
   [7, 14, 21, 28, 35, 42, 49, 50],
   [1, 9, 17, 25, 33, 41, 49, 51],
   [2, 10, 18, 26, 34, 42, 43, 51],
   [3, 11, 19, 27, 35, 36, 44, 51],
   [4, 12, 20, 28, 29, 37, 45, 51],
   [5, 13, 21, 22, 30, 38, 46, 51],
   [6, 14, 15, 23, 31, 39, 47, 51],
   [7, 8, 16, 24, 32, 40, 48, 51],
   [1, 10, 19, 28, 30, 39, 48, 52],
   [2, 11, 20, 22, 31, 40, 49, 52],
   [3, 12, 21, 23, 32, 41, 43, 52],
   [4, 13, 15, 24, 33, 42, 44, 52],
   [5, 14, 16, 25, 34, 36, 45, 52],
   [6, 8, 17, 26, 35, 37, 46, 52],
   [7, 9, 18, 27, 29, 38, 47, 52],
   [1, 11, 21, 24, 34, 37, 47, 53],
   [2, 12, 15, 25, 35, 38, 48, 53],
   [3, 13, 16, 26, 29, 39, 49, 53],
   [4, 14, 17, 27, 30, 40, 43, 53],
   [5, 8, 18, 28, 31, 41, 44, 53],
   [6, 9, 19, 22, 32, 42, 45, 53],
   [7, 10, 20, 23, 33, 36, 46, 53],
   [1, 12, 16, 27, 31, 42, 46, 54],
   [2, 13, 17, 28, 32, 36, 47, 54],
   [3, 14, 18, 22, 33, 37, 48, 54],
   [4, 8, 19, 23, 34, 38, 49, 54],
   [5, 9, 20, 24, 35, 39, 43, 54],
   [6, 10, 21, 25, 29, 40, 44, 54],
   [7, 11, 15, 26, 30, 41, 45, 54],
   [1, 13, 18, 23, 35, 40, 45, 55],
   [2, 14, 19, 24, 29, 41, 46, 55],
   [3, 8, 20, 25, 30, 42, 47, 55],
   [4, 9, 21, 26, 31, 36, 48, 55],
   [5, 10, 15, 27, 32, 37, 49, 55],
   [6, 11, 16, 28, 33, 38, 43, 55],
   [7, 12, 17, 22, 34, 39, 44, 55],
   [1, 14, 20, 26, 32, 38, 44, 56],
   [2, 8, 21, 27, 33, 39, 45, 56],
   [3, 9, 15, 28, 34, 40, 46, 56],
   [4, 10, 16, 22, 35, 41, 47, 56],
   [5, 11, 17, 23, 29, 42, 48, 56],
   [6, 12, 18, 24, 30, 36, 49, 56],
   [7, 13, 19, 25, 31, 37, 43, 56],
   [1, 2, 3, 4, 5, 6, 7, 57],
   [8, 9, 10, 11, 12, 13, 14, 57],
   [15, 16, 17, 18, 19, 20, 21, 57],
   [22, 23, 24, 25, 26, 27, 28, 57],
   [29, 30, 31, 32, 33, 34, 35, 57],
   [36, 37, 38, 39, 40, 41, 42, 57],
   [43, 44, 45, 46, 47, 48, 49, 57],
   [50, 51, 52, 53, 54, 55, 56, 57]]

/-- Boolean form of the pairwise one-shared-point invariant, evaluated over
the literal `deck` table. -/
def c1_deck_check : Bool :=
  (List.range 57).all (fun a => (List.range 57).all (fun b =>
    (a == b) ||
    (((deck.getD a []).filter (fun p => (deck.getD b []).contains p)).length == 1)))

/-- Boolean form of the per-card properties (8 entries, duplicate-free,
point ids in [1,57]), evaluated over the literal `deck` table. -/
def deck_prop_check : Bool :=
  (List.range 57).all (fun c =>
    ((deck.getD c []).length == 8) && decide (deck.getD c []).Nodup &&
    (deck.getD c []).all (fun p => decide (1 ≤ p) && decide (p ≤ 57)))

/-- Boolean form of the point-degree invariant (each point id 1..57 lies on
exactly 8 cards), evaluated over the literal `deck` table. -/
def degree_check : Bool :=
  (List.range 57).all (fun p => (deck.countP (fun l => l.contains ((p : Int) + 1))) == 8)

set_option maxHeartbeats 4000000 in
/-- The literal `deck` table agrees with the point-id lists the embedded
source computes, for every card 0..56. -/
theorem deck_eq : (List.range 57).map (fun c : Nat => card_point_ids (c : Int)) = deck := rfl

set_option maxHeartbeats 4000000 in
/-- Evaluation of the pairwise check on the literal table. -/
theorem c1_deck_check_eq : c1_deck_check = true := rfl

set_option maxHeartbeats 4000000 in
/-- Evaluation of the per-card check on the literal table. -/
theorem deck_prop_check_eq : deck_prop_check = true := rfl

set_option maxHeartbeats 4000000 in
/-- Evaluation of the degree check on the literal table. -/
theorem degree_check_eq : degree_check = true := rfl

/-- For a card id 0..56, the source-derived point-id list is the
corresponding row of the literal table. -/
theorem cpi_deck (a : Nat) (ha : a < 57) :
    card_point_ids (a : Int) = deck.getD a [] := by
  conv_rhs => rw [← deck_eq]
  rw [List.getD_eq_getElem?_getD, List.getElem?_map, List.getElem?_range ha]
  rfl

/-- The point-id list has the same length as the symbol list it projects. -/
theorem cpi_length (c : Int) :
    (card_point_ids c).length = (fallback_symbols_on_card c).length := by
  unfold card_point_ids
  exact List.length_map _ _

/-- Per-card properties of the fallback deck: 8 symbols, duplicate-free point
ids, point ids in [1,57]. -/
theorem card_props (c : Nat) (hc : c < 57) :
    (fallback_symbols_on_card (c : Int)).length = 8 ∧
    (card_point_ids (c : Int)).Nodup ∧
    ∀ p ∈ card_point_ids (c : Int), 1 ≤ p ∧ p ≤ 57 := by
  have h := deck_prop_check_eq
  unfold deck_prop_check at h
  rw [List.all_eq_true] at h
  have h1 := h c (List.mem_range.mpr hc)
  simp only [Bool.and_eq_true, beq_iff_eq, decide_eq_true_eq] at h1
  obtain ⟨⟨hlen, hnodup⟩, hall⟩ := h1
  have hdeck := cpi_deck c hc
  refine ⟨?_, ?_, ?_⟩
  · have h2 : (card_point_ids (c : Int)).length = 8 := by
      rw [hdeck]
      exact hlen
    rw [cpi_length] at h2
    exact h2
  · rw [hdeck]
    exact hnodup
  · intro p hp
    rw [hdeck] at hp
    have h3 := List.all_eq_true.mp hall p hp
    simp only [Bool.and_eq_true, decide_eq_true_eq] at h3
    exact h3

/-- A card id outside [0,56] has an empty fallback point-id set. -/
theorem card_point_ids_out_of_range (c : Int) (hc : ¬ (0 ≤ c ∧ c ≤ 56)) :
    card_point_ids c = [] := by
  simp [card_point_ids, fallback_symbols_on_card, fallback_card_indices, hc]

/-- Every fallback point-id list is duplicate-free, so the lists faithfully
represent the Python sets built from them. -/
theorem card_point_ids_nodup (c : Int) : (card_point_ids c).Nodup := by
  by_cases hc : 0 ≤ c ∧ c ≤ 56
  · have h1 : ((c.toNat : Nat) : Int) = c := Int.toNat_of_nonneg hc.1
    rw [← h1]
    exact (card_props c.toNat (by omega)).2.1
  · rw [card_point_ids_out_of_range c hc]
    exact List.nodup_nil

/-- The intersection is empty when the first point-id set is. -/
theorem shared_ids_left_empty (a b : Int) (h : card_point_ids a = []) :
    shared_ids a b = [] := by
  simp [shared_ids, h]

/-- The intersection is empty when the second point-id set is. -/
theorem shared_ids_right_empty (a b : Int) (h : card_point_ids b = []) :
    shared_ids a b = [] := by
  unfold shared_ids
  rw [h]
  refine List.filter_eq_nil_iff.mpr ?_
  intro p _
  simp [List.contains]

/-- The fallback shared-symbol query returns `none` as soon as either card has
an empty point-id set. -/
theorem fss_none_of_empty (a b : Int)
    (h : card_point_ids a = [] ∨ card_point_ids b = []) :
    fallback_shared_symbol a b = none := by
  have hs : shared_ids a b = [] := by
    cases h with
    | inl h => exact shared_ids_left_empty a b h
    | inr h => exact shared_ids_right_empty a b h
  unfold fallback_shared_symbol
  rw [hs]
  simp

/-- Two distinct cards 0..56 share exactly one point id. -/
theorem shared_len_one (a b : Nat) (ha : a < 57) (hb : b < 57) (hne : a ≠ b) :
    (shared_ids (a : Int) (b : Int)).length = 1 := by
  have h := c1_deck_check_eq
  unfold c1_deck_check at h
  rw [List.all_eq_true] at h
  have h1 := List.all_eq_true.mp (h a (List.mem_range.mpr ha)) b (List.mem_range.mpr hb)
  simp only [Bool.or_eq_true, beq_iff_eq] at h1
  cases h1 with
  | inl h1 => exact absurd h1 hne
  | inr h1 =>
    unfold shared_ids
    rw [cpi_deck a ha, cpi_deck b hb]
    exact h1

/-- When the intersection is a singleton, the fallback returns exactly its
element (with its display name), and the result is non-None. -/
theorem fss_of_length_one (a b : Int) (h : (shared_ids a b).length = 1) :
    fallback_shared_symbol a b =
      ((shared_ids a b).head?).map (fun pid => ⟨pid, name_for_point_id pid⟩) ∧
    (fallback_shared_symbol a b).isSome = true := by
  obtain ⟨x, hx⟩ := List.length_eq_one.mp h
  constructor
  · unfold fallback_shared_symbol
    rw [hx]
    simp
  · unfold fallback_shared_symbol
    rw [hx]
    simp

/-- Each point id 1..57 lies on exactly 8 of the 57 cards. -/
theorem point_degree_eight (pid : Int) (h1 : 1 ≤ pid) (h57 : pid ≤ 57) :
    point_degree pid = 8 := by
  have h := degree_check_eq
  unfold degree_check at h
  rw [List.all_eq_true] at h
  have hk : pid.toNat - 1 < 57 := by omega
  have h2 := h (pid.toNat - 1) (List.mem_range.mpr hk)
  simp only [beq_iff_eq] at h2
  have h4 : (((pid.toNat - 1 : Nat) : Int) + 1) = pid := by omega
  rw [h4] at h2
  rw [← deck_eq, List.countP_map] at h2
  unfold point_degree
  rw [← List.countP_eq_length_filter]
  simpa [Function.comp] using h2

set_option maxHeartbeats 1000000 in
/-- C1: for every pair of distinct card ids a and b in [0,56], the fallback
point sets of the two cards intersect in exactly one point, and the fallback
shared-symbol query returns exactly that point (a non-None result) rather
than absence. -/
theorem C1_distinct_pair_shares_exactly_one :
    ∀ a : Nat, a < 57 → ∀ b : Nat, b < 57 → a ≠ b →
      (shared_ids (a : Int) (b : Int)).length = 1 ∧
      fallback_shared_symbol (a : Int) (b : Int) =
        ((shared_ids (a : Int) (b : Int)).head?).map
          (fun pid => ⟨pid, name_for_point_id pid⟩) ∧
      (fallback_shared_symbol (a : Int) (b : Int)).isSome = true := by
  intro a ha b hb hne
  have hlen := shared_len_one a b ha hb hne
  have hf := fss_of_length_one _ _ hlen
  exact ⟨hlen, hf.1, hf.2⟩

/-- Witness for C1 at the concrete pair (0, 1). -/
theorem C1_witness :
    (shared_ids ((0 : Nat) : Int) ((1 : Nat) : Int)).length = 1 ∧
    fallback_shared_symbol ((0 : Nat) : Int) ((1 : Nat) : Int) =
      ((shared_ids ((0 : Nat) : Int) ((1 : Nat) : Int)).head?).map
        (fun pid => ⟨pid, name_for_point_id pid⟩) ∧
    (fallback_shared_symbol ((0 : Nat) : Int) ((1 : Nat) : Int)).isSome = true :=
  C1_distinct_pair_shares_exactly_one 0 (by decide) 1 (by decide) (by decide)

/-- C2, code bug, evaluated at the failing input (cards 0 and 1): the fallback
reports point id 50 named "Tree", while the seeded graph backend reports a
null point id (the Cypher query reads a `pointId` property the seeder never
writes; the matched node's `symbolId` is 49) and the name "Music notes". The
two backends do not agree on either channel. -/
theorem C2_backend_divergence :
    fallback_shared_symbol 0 1 = some ⟨50, "Tree"⟩ ∧
    graph_get_shared_symbol 0 1 = some (none, "Music notes") := by
  exact ⟨rfl, rfl⟩

/-- C3, code bug, evaluated at the failing input: for the round with human
card 0 and target card 1 the ground-truth shared point id is 50, yet a claim
supplying exactly that id (and no name) makes the judge raise
KeyError("symbolId") — `validate_human_answer` subscripts the key "symbolId"
on a truth dict whose keys are "pointId" and "name" — instead of returning
true. -/
theorem C3_correct_id_raises_keyerror :
    fallback_shared_symbol 0 1 = some ⟨50, "Tree"⟩ ∧
    judge_answer none (some 50) ⟨1, 2, 0⟩ "human" =
      Except.error (PyErr.keyError "symbolId") := by
  exact ⟨rfl, rfl⟩

/-- C4 counterexample: point id 0 is claimed to lie on card 0, but the
symbols-on-card query for card 0 does not contain 0 at all. -/
theorem C4_counterexample :
    (0 : Int) ∉ card_point_ids 0 ∧
    (0 : Int) ∈ ([0, 7, 14, 21, 28, 35, 42, 49] : List Int) := by
  decide

/-- C4 amended: the point-id set of card 0 is exactly
`{1, 8, 15, 22, 29, 36, 43, 50}` — each id of the claim shifted up by one,
since the fallback numbers points 1..57 (construction index plus one). -/
theorem C4_card_zero_point_ids :
    card_point_ids 0 = [1, 8, 15, 22, 29, 36, 43, 50] := by
  decide

/-- C5 counterexample: the symbols-on-card query for card 56 exposes the
point id 57, which is not in [0, 56]. -/
theorem C5_counterexample :
    (57 : Int) ∈ card_point_ids 56 ∧ ¬ ((57 : Int) ≤ 56) := by
  decide

/-- C5 amended: every point id exposed by the fallback queries (each entry of
the symbols-on-card list for any card, and the point returned by the
shared-symbol query) is an integer in [1, 57]. -/
theorem C5_point_ids_in_range :
    (∀ c : Int, ∀ s ∈ fallback_symbols_on_card c,
      1 ≤ s.pointId ∧ s.pointId ≤ 57) ∧
    (∀ a b : Int, ∀ s : Symbol, fallback_shared_symbol a b = some s →
      1 ≤ s.pointId ∧ s.pointId ≤ 57) := by
  have h1 : ∀ c : Int, ∀ s ∈ fallback_symbols_on_card c,
      1 ≤ s.pointId ∧ s.pointId ≤ 57 := by
    intro c s hs
    by_cases hc : 0 ≤ c ∧ c ≤ 56
    · have hc2 : ((c.toNat : Nat) : Int) = c := Int.toNat_of_nonneg hc.1
      have hp : s.pointId ∈ card_point_ids c := by
        unfold card_point_ids
        exact List.mem_map_of_mem Symbol.pointId hs
      exact (card_props c.toNat (by omega)).2.2 s.pointId (by rwa [hc2])
    · have hnil : fallback_symbols_on_card c = [] := by
        simp [fallback_symbols_on_card, fallback_card_indices, hc]
      rw [hnil] at hs
      exact absurd hs (List.not_mem_nil s)
  refine ⟨h1, ?_⟩
  intro a b s hs
  unfold fallback_shared_symbol at hs
  by_cases hl : (shared_ids a b).length ≠ 1
  · rw [if_pos hl] at hs
    exact absurd hs (by simp)
  · rw [if_neg hl] at hs
    obtain ⟨x, hx⟩ := List.length_eq_one.mp (not_not.mp hl)
    rw [hx] at hs
    have hsx : (⟨x, name_for_point_id x⟩ : Symbol) = s := Option.some.inj hs
    have hxmem : x ∈ shared_ids a b := by
      rw [hx]
      exact List.mem_singleton.mpr rfl
    have hxa : x ∈ card_point_ids a := by
      unfold shared_ids at hxmem
      exact (List.mem_filter.mp hxmem).1
    have hxmap : x ∈ (fallback_symbols_on_card a).map Symbol.pointId := hxa
    obtain ⟨t, ht, htx⟩ := List.mem_map.mp hxmap
    have hb2 := h1 a t ht
    rw [htx] at hb2
    rw [← hsx]
    exact hb2

/-- Witness for C5 (amended) at the shared symbol of cards 0 and 1. -/
theorem C5_witness :
    1 ≤ (Symbol.mk 50 "Tree").pointId ∧ (Symbol.mk 50 "Tree").pointId ≤ 57 :=
  C5_point_ids_in_range.2 0 1 ⟨50, "Tree"⟩ (by decide)

/-- C6: every card in [0,56] carries exactly 8 symbols with pairwise-distinct
point ids, and every point id of the deck (the fallback exposes point ids
1..57) lies on exactly 8 of the 57 cards. -/
theorem C6_degree_invariants :
    (∀ c : Nat, c < 57 → (fallback_symbols_on_card (c : Int)).length = 8 ∧
      (card_point_ids (c : Int)).Nodup) ∧
    (∀ pid : Int, 1 ≤ pid → pid ≤ 57 → point_degree pid = 8) :=
  ⟨fun c hc => ⟨(card_props c hc).1, (card_props c hc).2.1⟩, point_degree_eight⟩

/-- Witness for C6 at card 3 and point id 5. -/
theorem C6_witness :
    ((fallback_symbols_on_card ((3 : Nat) : Int)).length = 8 ∧
      (card_point_ids ((3 : Nat) : Int)).Nodup) ∧ point_degree 5 = 8 :=
  ⟨C6_degree_invariants.1 3 (by decide), C6_degree_invariants.2 5 (by decide) (by decide)⟩

/-- C7: for any draw admissible for `random.sample(range(57), 3)`, `new_round`
yields three pairwise-distinct card ids, each in [0,56], with the first drawn
id as target, the second as ai, the third as human. -/
theorem C7_round_assignment (ids : List Int) (h : is_sample_57_3 ids) :
    ((new_round ids).target_card_id ≠ (new_round ids).ai_card_id ∧
     (new_round ids).target_card_id ≠ (new_round ids).human_card_id ∧
     (new_round ids).ai_card_id ≠ (new_round ids).human_card_id) ∧
    (0 ≤ (new_round ids).target_card_id ∧ (new_round ids).target_card_id ≤ 56 ∧
     0 ≤ (new_round ids).ai_card_id ∧ (new_round ids).ai_card_id ≤ 56 ∧
     0 ≤ (new_round ids).human_card_id ∧ (new_round ids).human_card_id ≤ 56) ∧
    (ids[0]? = some (new_round ids).target_card_id ∧
     ids[1]? = some (new_round ids).ai_card_id ∧
     ids[2]? = some (new_round ids).human_card_id) := by
  obtain ⟨hlen, hnodup, hrange⟩ := h
  obtain ⟨a, b, c, rfl⟩ := List.length_eq_three.mp hlen
  have ha := hrange a (by simp)
  have hb2 := hrange b (by simp)
  have hc2 := hrange c (by simp)
  simp only [List.nodup_cons, List.mem_cons, List.not_mem_nil, or_false,
    not_or, List.nodup_nil, and_true] at hnodup
  obtain ⟨⟨hab, hac⟩, hbc, -⟩ := hnodup
  exact ⟨⟨hab, hac, hbc⟩,
    ⟨ha.1, show a ≤ 56 by omega, hb2.1, show b ≤ 56 by omega,
     hc2.1, show c ≤ 56 by omega⟩, rfl, rfl, rfl⟩

/-- Witness for C7 at the concrete draw [5, 10, 20]. -/
theorem C7_witness :
    ((new_round [5, 10, 20]).target_card_id ≠ (new_round [5, 10, 20]).ai_card_id ∧
     (new_round [5, 10, 20]).target_card_id ≠ (new_round [5, 10, 20]).human_card_id ∧
     (new_round [5, 10, 20]).ai_card_id ≠ (new_round [5, 10, 20]).human_card_id) ∧
    (0 ≤ (new_round [5, 10, 20]).target_card_id ∧
     (new_round [5, 10, 20]).target_card_id ≤ 56 ∧
     0 ≤ (new_round [5, 10, 20]).ai_card_id ∧
     (new_round [5, 10, 20]).ai_card_id ≤ 56 ∧
     0 ≤ (new_round [5, 10, 20]).human_card_id ∧
     (new_round [5, 10, 20]).human_card_id ≤ 56) ∧
    (([5, 10, 20] : List Int)[0]? = some (new_round [5, 10, 20]).target_card_id ∧
     ([5, 10, 20] : List Int)[1]? = some (new_round [5, 10, 20]).ai_card_id ∧
     ([5, 10, 20] : List Int)[2]? = some (new_round [5, 10, 20]).human_card_id) :=
  C7_round_assignment [5, 10, 20] (by decide)

/-- C8 counterexample: for the equal pair (0, 0) the intersection has 8
points, a condition the claim says must surface as an internal error; the
fallback instead returns `none`, the very value it uses for absence. -/
theorem C8_counterexample :
    (shared_ids 0 0).length = 8 ∧ fallback_shared_symbol 0 0 = none := by
  decide

/-- C8 amended: when the shared-point set of a card pair does not have exactly
one element, the fallback shared-symbol query returns `None` (the explicit
absence value) — it neither raises an internal error nor guesses a default
point. -/
theorem C8_non_unique_gives_none (a b : Int)
    (h : (shared_ids a b).length ≠ 1) : fallback_shared_symbol a b = none := by
  unfold fallback_shared_symbol
  rw [if_pos h]

/-- Witness for C8 (amended) at the equal pair (0, 0). -/
theorem C8_witness :
    (shared_ids 0 0).length ≠ 1 ∧ fallback_shared_symbol 0 0 = none :=
  ⟨by decide, C8_non_unique_gives_none 0 0 (by decide)⟩

/-- C9: the fallback shared-symbol query is symmetric in its two arguments,
for all integer card ids (same result, or `None` in both orders). -/
theorem C9_shared_symbol_symmetric (a b : Int) :
    fallback_shared_symbol a b = fallback_shared_symbol b a := by
  by_cases ha : 0 ≤ a ∧ a ≤ 56
  · by_cases hb : 0 ≤ b ∧ b ≤ 56
    · have h1 : ((a.toNat : Nat) : Int) = a := Int.toNat_of_nonneg ha.1
      have h2 : ((b.toNat : Nat) : Int) = b := Int.toNat_of_nonneg hb.1
      by_cases hab : a = b
      · rw [hab]
      · have hne : a.toNat ≠ b.toNat := by
          intro h
          exact hab (by rw [← h1, ← h2, h])
        have hl1 := shared_len_one a.toNat b.toNat (by omega) (by omega) hne
        have hl2 := shared_len_one b.toNat a.toNat (by omega) (by omega) (Ne.symm hne)
        rw [h1, h2] at hl1 hl2
        obtain ⟨x, hx⟩ := List.length_eq_one.mp hl1
        obtain ⟨y, hy⟩ := List.length_eq_one.mp hl2
        have hxy : x = y := by
          have hxm : x ∈ shared_ids a b := by
            rw [hx]
            exact List.mem_singleton.mpr rfl
          unfold shared_ids at hxm
          have hx1 := List.mem_filter.mp hxm
          have hxb : x ∈ card_point_ids b := List.elem_iff.mp hx1.2
          have hxm2 : x ∈ shared_ids b a := by
            unfold shared_ids
            exact List.mem_filter.mpr ⟨hxb, List.elem_iff.mpr hx1.1⟩
          rw [hy] at hxm2
          exact List.mem_singleton.mp hxm2
        have hsym : shared_ids a b = shared_ids b a := by
          rw [hx, hy, hxy]
        unfold fallback_shared_symbol
        rw [hsym]
    · have h := card_point_ids_out_of_range b hb
      rw [fss_none_of_empty a b (Or.inr h), fss_none_of_empty b a (Or.inl h)]
  · have h := card_point_ids_out_of_range a ha
    rw [fss_none_of_empty a b (Or.inl h), fss_none_of_empty b a (Or.inr h)]

/-- C10: for every card id outside [0,56] the fallback symbols-on-card query
returns the empty list, and the fallback shared-symbol query returns `None`
for any pair involving such an id, in either argument position (both
functions are total: no code path raises). -/
theorem C10_out_of_range_empty (a : Int) (ha : ¬ (0 ≤ a ∧ a ≤ 56)) :
    fallback_symbols_on_card a = [] ∧
    ∀ b : Int, fallback_shared_symbol a b = none ∧
      fallback_shared_symbol b a = none := by
  have hempty : fallback_symbols_on_card a = [] := by
    simp [fallback_symbols_on_card, fallback_card_indices, ha]
  have hpids : card_point_ids a = [] := by
    simp [card_point_ids, hempty]
  exact ⟨hempty, fun b => ⟨fss_none_of_empty a b (Or.inl hpids),
    fss_none_of_empty b a (Or.inr hpids)⟩⟩

/-- Witness for C10 at the concrete card id -1 paired with card 3. -/
theorem C10_witness :
    fallback_symbols_on_card (-1) = [] ∧
    fallback_shared_symbol (-1) 3 = none ∧ fallback_shared_symbol 3 (-1) = none :=
  ⟨(C10_out_of_range_empty (-1) (by decide)).1,
   ((C10_out_of_range_empty (-1) (by decide)).2 3).1,
   ((C10_out_of_range_empty (-1) (by decide)).2 3).2⟩

end FastMatch
